import Mathlib

/-!
Verification of the spindle delegation daemon (src/spindle/__init__.py)
against its natural-language specification.

The Python module is shallowly embedded: spool records are a Lean
structure mirroring the JSON record dict, the on-disk spool store is a
`Store` structure (records plus the transient stdout/stderr/transcript
files, addressed by spool id), and each operation of the module is a
Lean function translated statement by statement from the source.
External effects are oracles passed as arguments:
`jl` models `json.loads` (`none` = `JSONDecodeError`), `alive` models
`_is_pid_alive`, process spawning returns the pid chosen by the caller,
and git subprocesses are logged as `GitCall` values whose outputs come
from an environment record.  Timestamps are abstract integers
(`datetime.now()` becomes a `now : Int` argument; `elapsed` is a
difference of these).
-/

namespace Spindle

/-- JSON values as returned by `json.loads`. -/
inductive JVal where
  | null
  | bool (b : Bool)
  | num (n : Int)
  | str (s : String)
  | arr (xs : List JVal)
  | obj (fields : List (String × JVal))
deriving Repr

mutual

/-- Structural equality on JSON values (Python `==` restricted to the
values `json.loads` can produce). -/
def JVal.beq : JVal → JVal → Bool
  | .null, .null => true
  | .bool a, .bool b => a == b
  | .num a, .num b => a == b
  | .str a, .str b => a == b
  | .arr xs, .arr ys => JVal.beqList xs ys
  | .obj fs, .obj gs => JVal.beqFields fs gs
  | _, _ => false

/-- Elementwise equality of JSON arrays. -/
def JVal.beqList : List JVal → List JVal → Bool
  | [], [] => true
  | x :: xs, y :: ys => JVal.beq x y && JVal.beqList xs ys
  | _, _ => false

/-- Elementwise equality of JSON object field lists. -/
def JVal.beqFields : List (String × JVal) → List (String × JVal) → Bool
  | [], [] => true
  | (k, v) :: xs, (l, w) :: ys => k == l && JVal.beq v w && JVal.beqFields xs ys
  | _, _ => false

end

instance : BEq JVal := ⟨JVal.beq⟩

/-- Python truthiness of a JSON value (`if x:`). -/
def jtruthy : JVal → Bool
  | .null => false
  | .bool b => b
  | .num n => n != 0
  | .str s => !s.isEmpty
  | .arr xs => !xs.isEmpty
  | .obj fs => !fs.isEmpty

/-- Python truthiness of an optional JSON value (absent key / `None` is falsy). -/
def jtruthyOpt : Option JVal → Bool
  | none => false
  | some v => jtruthy v

/-- Python truthiness of an `Optional[str]` (`None` and `""` are falsy). -/
def strTruthy : Option String → Bool
  | none => false
  | some s => !s.isEmpty

/-- Does `needle` occur as a prefix of `hay` (on character lists)? -/
def listStarts (hay needle : List Char) : Bool :=
  match needle, hay with
  | [], _ => true
  | _ :: _, [] => false
  | n :: ns, h :: hs => n == h && listStarts hs ns

/-- Does `needle` occur as a contiguous sublist of `hay`? -/
def listContains (hay needle : List Char) : Bool :=
  match hay with
  | [] => needle.isEmpty
  | _ :: t => listStarts hay needle || listContains t needle

/-- Python `needle in hay` on strings (substring test, by code point). -/
def pyContains (hay needle : String) : Bool :=
  listContains hay.data needle.data

/-- Python `s.endswith(suffix)`. -/
def pyEndsWith (s suffix : String) : Bool :=
  listStarts s.data.reverse suffix.data.reverse

/-- Python `s[:n]` (slice by code points). -/
def strTake (s : String) (n : Nat) : String :=
  ⟨s.data.take n⟩

/-- Falsity of Python `s.strip()`: every character is whitespace (an
empty string is vacuously blank). -/
def isBlank (s : String) : Bool :=
  s.data.all Char.isWhitespace

/-- Split `hay` at the first occurrence of (non-empty) `needle`:
`some (before, after)`, or `none` when it does not occur. -/
def splitFirst (hay needle : List Char) : Option (List Char × List Char) :=
  match hay with
  | [] => if needle.isEmpty then some ([], []) else none
  | h :: t =>
    if listStarts hay needle then some ([], hay.drop needle.length)
    else
      match splitFirst t needle with
      | some (pre, post) => some (h :: pre, post)
      | none => none

/-- `dict.get(k)` on a JSON object: Python's dict built by `json.loads`
keeps the last duplicate key, hence the reversed search. -/
def dictGet (fields : List (String × JVal)) (k : String) : Option JVal :=
  (fields.reverse.find? (fun p => p.1 == k)).map (·.2)

/-- Python `"k" in data` where `data` came from `json.loads`:
key membership for dicts, element equality for lists, substring test for
strings, and an uncaught `TypeError` (`none`) for numbers, booleans and
`None` — exactly what CPython does. -/
def pyIn (needle : String) : JVal → Option Bool
  | .obj fs => some (fs.any (fun p => p.1 == needle))
  | .arr xs => some (xs.any (fun x => x == JVal.str needle))
  | .str s => some (pyContains s needle)
  | _ => none

/-- Python `s.split(sep, 1)[-1]`: everything after the first occurrence
of `sep`, or the whole string when `sep` does not occur. -/
def splitOnceTail (s sep : String) : String :=
  match splitFirst s.data sep.data with
  | some (_, post) => ⟨post⟩
  | none => s

/-- The `shard` sub-dict of a spool record, as produced by `_spawn_shard`
(`worktree_path`, `branch_name`, `shard_id` always set there) and later
extended in place by `shard_merge` / `shard_abandon` with the
`merged` / `abandoned` bookkeeping keys (absent keys are falsy under
`.get`, modelled by the `false` / `none` defaults). -/
structure Shard where
  worktree_path : String
  branch_name : String
  shard_id : String
  merged : Bool := false
  merged_at : Option Int := none
  abandoned : Bool := false
  abandoned_at : Option Int := none
deriving Repr

/-- One spool record (`spools/<id>.json`). Field names follow the dict
keys written by `_spin_sync` / `_respin_sync`; keys that a given writer
does not set are the defaults (absent ≈ `None` / falsy under `.get`). -/
structure Spool where
  id : String
  status : String
  prompt : String
  result : Option JVal := none
  session_id : Option JVal := none
  working_dir : String := ""
  allowed_tools : Option String := none
  permission : Option String := none
  system_prompt : Option String := none
  tags : List String := []
  shard : Option Shard := none
  model : Option String := none
  timeout : Option Int := none
  created_at : Int := 0
  completed_at : Option Int := none
  pid : Option Int := none
  cost : Option JVal := none
  error : Option String := none
  used_transcript_fallback : Bool := false
  transcript_fallback_available : Bool := false
  transcript_injected_at : Option Int := none
deriving Repr

/-- Association-list read of a per-id file (`none` = file does not exist). -/
def fileGet (files : List (String × String)) (id : String) : Option String :=
  (files.find? (fun p => p.1 == id)).map (·.2)

/-- Create or overwrite a per-id file. -/
def fileSet (files : List (String × String)) (id content : String) : List (String × String) :=
  if files.any (fun p => p.1 == id) then
    files.map (fun p => if p.1 == id then (id, content) else p)
  else
    files ++ [(id, content)]

/-- Delete a per-id file (`unlink` guarded by `exists()`: removing an
absent file is a no-op). -/
def fileDel (files : List (String × String)) (id : String) : List (String × String) :=
  files.filter (fun p => !(p.1 == id))

/-- The spool store: the `spools/` directory.  `records` are the
`<id>.json` files, the three file lists are the `<id>.stdout`,
`<id>.stderr` and `transcripts/<id>.txt` siblings, `writes` logs every
`_write_spool` call (used to count authoritative record writes) and
`spawns` logs every `_spawn_detached` call as (id, argv, cwd). -/
structure Store where
  records : List Spool := []
  stdoutFiles : List (String × String) := []
  stderrFiles : List (String × String) := []
  transcripts : List (String × String) := []
  writes : List Spool := []
  spawns : List (String × List String × String) := []
deriving Repr

/-- `_read_spool`: parse `<id>.json`, `None` when missing. -/
def read_spool (st : Store) (id : String) : Option Spool :=
  st.records.find? (fun sp => sp.id == id)

/-- `_write_spool`: atomically (re)write `<id>.json`, and log the write. -/
def write_spool (st : Store) (sp : Spool) : Store :=
  let rs :=
    if st.records.any (fun r => r.id == sp.id) then
      st.records.map (fun r => if r.id == sp.id then sp else r)
    else
      st.records ++ [sp]
  { st with records := rs, writes := st.writes ++ [sp] }

/-- `_count_running`: counts records whose `status` is `"running"` —
and only those. -/
def count_running (records : List Spool) : Nat :=
  (records.filter (fun s => s.status == "running")).length

/-- Number of records whose status is `pending` or `running` (the
quantity the spec's admission invariant bounds). -/
def countPendingRunning (records : List Spool) : Nat :=
  (records.filter (fun s => s.status == "pending" || s.status == "running")).length

/-- `_find_spool_by_session`: first record whose `session_id` equals the
target (Python `==`; `None == None` is true, collapsed here into
`Option JVal` equality). -/
def find_spool_by_session (records : List Spool) (target : Option JVal) : Option Spool :=
  records.find? (fun sp => sp.session_id == target)

/-- A status is terminal when it is `complete`, `error` or `timeout`. -/
def isTerminal (s : String) : Bool :=
  s == "complete" || s == "error" || s == "timeout"

/-- `_spawn_detached`'s filesystem effect: opens `<id>.stdout` and
`<id>.stderr` with mode `"w"` (truncating them to empty) and launches
the command; the spawn is logged as (id, argv, cwd).  The pid is chosen
by the surrounding oracle. -/
def spawn_detached_fs (st : Store) (id : String) (cmd : List String) (cwd : String) : Store :=
  { st with
    stdoutFiles := fileSet st.stdoutFiles id ""
    stderrFiles := fileSet st.stderrFiles id ""
    spawns := st.spawns ++ [(id, cmd, cwd)] }

/-! ## Finalization (`_check_and_finalize_spool`, lines 432-523)

The function is translated in two halves that mirror its control flow:
a read half (everything up to computing the updated record) and a write
half (`completed_at`, `_write_spool`, the transcript copy, sibling
deletion).  `check_and_finalize_spool` is their sequential composition;
the split lets the interleaving of two concurrent finalizers be stated.
A `none` result models an uncaught exception (`TypeError` from `in` on
a non-container, `AttributeError` from `.get` on a non-dict). -/

/-- The `stdout_complete` computation: does `<id>.stdout` already parse
as JSON with a `result` or `error` key?  (`IOError`/`JSONDecodeError`
are swallowed; a `TypeError` from `in` on a number/bool/null is not.) -/
def stdout_complete_check (jl : String → Option JVal) (stdoutFile : Option String) :
    Option Bool :=
  match stdoutFile with
  | none => some false
  | some content =>
    if isBlank content then some false
    else
      match jl content with
      | none => some false
      | some data =>
        match pyIn "result" data, pyIn "error" data with
        | some b1, some b2 => some (b1 || b2)
        | _, _ => none

/-- The result-parsing block (lines 487-502): `json.loads(stdout)`, the
three-way `.get` update on success, and the stdout/stderr/empty cascade
on `JSONDecodeError`.  When `stdout` parses as JSON that is *not* an
object, `data.get` raises an uncaught `AttributeError` (`none`). -/
def finalize_decision (jl : String → Option JVal) (sp : Spool) (stdout stderr : String) :
    Option Spool :=
  match jl stdout with
  | some (.obj fields) =>
    some { sp with
      result := some ((dictGet fields "result").getD (.str stdout))
      session_id := dictGet fields "session_id"
      cost := dictGet fields "cost"
      status := "complete" }
  | some _ => none
  | none =>
    if !isBlank stdout then
      some { sp with result := some (.str stdout), status := "complete" }
    else if !isBlank stderr then
      some { sp with status := "error", error := some (strTake stderr 500) }
    else
      some { sp with status := "error", error := some "Process exited with no output" }

/-- What a finalizer decides before it writes: the updated record and
the stdout it read. -/
structure FinalPlan where
  newRecord : Spool
  stdout : String
deriving Repr

/-- Read half of `_check_and_finalize_spool`: record lookup, status and
pid guards (`if not pid` is falsy for `None` and `0`), the
`stdout_complete` probe, the liveness test, and the parse.
`.inl b` is an early `return b`; `.inr` carries the pending write. -/
def finalizeRead (jl : String → Option JVal) (alive : Int → Bool) (st : Store) (id : String) :
    Option (Sum Bool FinalPlan) :=
  match read_spool st id with
  | none => some (.inl true)
  | some sp =>
    if sp.status != "running" then some (.inl true)
    else
      match sp.pid with
      | none => some (.inl false)
      | some pid =>
        if pid == 0 then some (.inl false)
        else
          match stdout_complete_check jl (fileGet st.stdoutFiles id) with
          | none => none
          | some sc =>
            if alive pid && !sc then some (.inl false)
            else
              let stdout := (fileGet st.stdoutFiles id).getD ""
              let stderr := (fileGet st.stderrFiles id).getD ""
              match finalize_decision jl sp stdout stderr with
              | none => none
              | some sp1 => some (.inr ⟨sp1, stdout⟩)

/-- Write half of `_check_and_finalize_spool`: set `completed_at`,
persist the record, copy stdout to `transcripts/<id>.txt` when the
(new) `session_id` is truthy and stdout is non-empty, and delete the
stdout/stderr siblings. -/
def finalizeWrite (now : Int) (st : Store) (id : String) (p : FinalPlan) : Store :=
  let sp2 := { p.newRecord with completed_at := some now }
  let st1 := write_spool st sp2
  let st2 :=
    if jtruthyOpt sp2.session_id && p.stdout != "" then
      { st1 with transcripts := fileSet st1.transcripts id p.stdout }
    else st1
  { st2 with
    stdoutFiles := fileDel st2.stdoutFiles id
    stderrFiles := fileDel st2.stderrFiles id }

/-- `_check_and_finalize_spool(spool_id)`: the full function, read half
followed by write half.  Result: `none` = uncaught exception, otherwise
the returned boolean and the store after any writes.  Note the read
half returns `true` for a missing record and for *any* non-`running`
status — including `pending`. -/
def check_and_finalize_spool (jl : String → Option JVal) (alive : Int → Bool) (now : Int)
    (st : Store) (id : String) : Option (Bool × Store) :=
  match finalizeRead jl alive st id with
  | none => none
  | some (.inl b) => some (b, st)
  | some (.inr p) => some (true, finalizeWrite now st id p)

/-! ## Respin transcript fallback and the per-spool monitor
(`_handle_expired_session`, lines 533-589; `_monitor_spool`, 592-633) -/

/-- `_handle_expired_session(spool_id, spool)`: look up the originating
spool by `session_id`, require its transcript, kill the failing child
(signal delivery — outside the store model), rebuild the prompt around
the transcript, respawn without `--resume`, and persist the new pid with
`used_transcript_fallback = true`.  `none` models a `False` return
(no originating spool, no transcript, or the respawn raised —
`fallbackPid = none`). -/
def handle_expired_session (now : Int) (fallbackPid : Option Int) (st : Store)
    (id : String) (sp : Spool) : Option Store :=
  match find_spool_by_session st.records sp.session_id with
  | none => none
  | some orig =>
    match fileGet st.transcripts orig.id with
    | none => none
    | some transcript =>
      let contextPrompt :=
        "Previous conversation transcript:\n\n" ++ transcript ++
          "\n\n---\n\nContinue from above. New message: " ++ splitOnceTail sp.prompt ": "
      let cmd := ["claude", "-p", contextPrompt, "--output-format", "json"]
      match fallbackPid with
      | none => none
      | some npid =>
        let st1 := spawn_detached_fs st id cmd sp.working_dir
        let sp1 := { sp with
          pid := some npid
          used_transcript_fallback := true
          transcript_injected_at := some now }
        some (write_spool st1 sp1)

/-- How one iteration of the `_monitor_spool` loop ends: by breaking out
(timeout written / fallback succeeded / finalized) or by sleeping and
polling again. -/
inductive MonitorOutcome where
  | exitTimeout
  | exitFallback
  | exitFinalized
  | poll
deriving Repr, DecidableEq

/-- The tail of a monitor iteration after the timeout branch: the respin
sentinel check (only for a truthy `session_id` on a `running` record;
a successful fallback breaks the loop) followed by
`_check_and_finalize_spool` (a `true` return breaks the loop). -/
def monitorSentinelAndFinalize (jl : String → Option JVal) (alive : Int → Bool) (now : Int)
    (fallbackPid : Option Int) (st : Store) (id : String) (spool : Option Spool) :
    Option (MonitorOutcome × Store) :=
  let fallbackResult : Option Store :=
    match spool with
    | some sp =>
      if jtruthyOpt sp.session_id && sp.status == "running" then
        match fileGet st.stderrFiles id with
        | some stderrContent =>
          if pyContains stderrContent "No conversation found with session ID" then
            handle_expired_session now fallbackPid st id sp
          else none
        | none => none
      else none
    | none => none
  match fallbackResult with
  | some st' => some (.exitFallback, st')
  | none =>
    match check_and_finalize_spool jl alive now st id with
    | none => none
    | some (true, st') => some (.exitFinalized, st')
    | some (false, st') => some (.poll, st')

/-- One iteration of `_monitor_spool`'s `while True` loop.  The timeout
branch runs first and — exactly as in the source — does **not** check
that the record's status is still `running`: a truthy `timeout` whose
deadline has passed is written as `status = "timeout"` regardless of the
current status.  (`fallbackPid` is the pid the transcript-fallback
respawn would get; `none` = that spawn would raise.) -/
def monitor_iterate (jl : String → Option JVal) (alive : Int → Bool) (now : Int)
    (fallbackPid : Option Int) (st : Store) (id : String) :
    Option (MonitorOutcome × Store) :=
  let spool := read_spool st id
  match spool with
  | some sp =>
    match sp.timeout with
    | some t =>
      if t != 0 && now - sp.created_at > t then
        let sp' := { sp with
          status := "timeout"
          error := some ("Timeout after " ++ toString t ++ "s")
          completed_at := some now }
        some (.exitTimeout, write_spool st sp')
      else
        monitorSentinelAndFinalize jl alive now fallbackPid st id spool
    | none => monitorSentinelAndFinalize jl alive now fallbackPid st id spool
  | none => monitorSentinelAndFinalize jl alive now fallbackPid st id spool

/-! ## Permission profiles and resolution (`PERMISSION_PROFILES`,
`_resolve_permission`, lines 66-130) -/

/-- The closed profile table (`None` = no restrictions). -/
def PERMISSION_PROFILES : List (String × Option String) := [
  ("readonly", some "Read,Grep,Glob,Bash(ls:*),Bash(cat:*),Bash(head:*),Bash(tail:*),Bash(git status:*),Bash(git log:*),Bash(git diff:*)"),
  ("careful", some "Read,Write,Edit,Grep,Glob,Bash(git:*),Bash(make:*),Bash(pytest:*),Bash(python:*),Bash(npm:*),Bash(skein:*),Bash(muster:*)"),
  ("full", none),
  ("shard", none),
  ("careful+shard", some "Read,Write,Edit,Grep,Glob,Bash(git:*),Bash(make:*),Bash(pytest:*),Bash(python:*),Bash(npm:*),Bash(skein:*),Bash(muster:*)")]

/-- `PERMISSION_PROFILES[k]` as a lookup (`none` = unknown profile). -/
def profilesLookup (k : String) : Option (Option String) :=
  (PERMISSION_PROFILES.find? (fun p => p.1 == k)).map (·.2)

/-- `_resolve_permission(permission, allowed_tools)`.  Note both guards
are Python truthiness tests: `if allowed_tools:` treats the empty string
like `None`, and `if not permission:` defaults both `None` and `""` to
`"careful"`. -/
def resolve_permission (permission allowed_tools : Option String) :
    Option String × Bool :=
  if strTruthy allowed_tools then (allowed_tools, false)
  else
    let p := if strTruthy permission then permission.getD "" else "careful"
    let use_shard := p == "shard" || pyEndsWith p "+shard"
    match profilesLookup p with
    | some v => (v, use_shard)
    | none => ((profilesLookup "careful").getD none, false)

/-! ## `_spin_sync` (lines 662-848) and `_respin_sync` (lines 973-1024)

Each is split at its two `_write_spool` calls: phase 1 is admission
through the `pending` record write, phase 2 is the detached spawn plus
the pid-stamping `running` write.  The synchronous entry point is their
composition; the split expresses the interleavings of concurrent calls
(the source takes no lock between the admission check and either
write). -/

/-- The SKEIN ignition preamble prepended to a sharded child's prompt
(lines 707-721). -/
def skeinPreamble (prompt spool_id worktree_name : String) : String :=
  "You are working in an isolated SHARD worktree.\n\nBefore starting work, orient yourself with SKEIN:\n1. Run: skein ignite --message \"" ++
    strTake prompt 100 ++
    "...\"\n2. Then: skein ready --name \"spool-" ++ spool_id ++
    "\"\n\nAfter completing work:\n1. Commit: git add -A && git commit -m \"Your commit message\"\n2. Tender: skein shard tender " ++
    worktree_name ++
    " --summary \"What you did\" --confidence N\n   (confidence 1-10: 10=safe/isolated, 5=needs review, 1=risky)\n3. Retire: skein torch && skein complete\n\nYour task:\n"

/-- The non-SKEIN shard preamble (lines 724-730). -/
def shardPreambleText : String :=
  "You are working in an isolated SHARD worktree.\n\nAfter completing work:\n1. Commit: git add -A && git commit -m \"Your commit message\"\n\nYour task:\n"

/-- The `--permission-mode bypassPermissions` condition (line 740):
`permission in ("full", "shard") or (permission and "+shard" in permission)`. -/
def permModeBypass (permission : Option String) : Bool :=
  permission == some "full" || permission == some "shard" ||
    (strTruthy permission && pyContains (permission.getD "") "+shard")

/-- The arguments of `spin` (defaults as in the tool signature). -/
structure SpinArgs where
  prompt : String
  permission : Option String := none
  shard : Bool := false
  system_prompt : Option String := none
  working_dir : Option String := none
  allowed_tools : Option String := none
  tags : Option String := none
  model : Option String := none
  timeout : Option Int := none
  skeinless : Bool := false
deriving Repr

/-- The external world of one `_spin_sync` call: the concurrency cap
(`SPINDLE_MAX_CONCURRENT`), the cached SKEIN probe, the result
`_spawn_shard` would produce, whether `bwrap` is on `PATH`, the
filesystem-probed bind arguments of the bwrap wrapper (lines 772-805),
the fresh uuid-derived spool id, the spawned child's pid, and the
clock. -/
structure SpinEnv where
  maxConcurrent : Nat
  hasSkein : Bool := false
  spawnShardRes : Option Shard := none
  bwrapAvail : Bool := false
  gitBinds : List String := []
  configBinds : List String := []
  newId : String
  newPid : Int
  now : Int
deriving Repr

/-- What a spin/respin call carries between its two writes: the pending
record it persisted, and the argv and cwd it will spawn with. -/
structure SpinCtx where
  record : Spool
  cmd : List String
  cwd : String
deriving Repr

/-- `_spin_sync` through the `pending` `_write_spool` (lines 675-834):
the running-count admission check, the required `working_dir`, permission
resolution, shard creation, the prompt preamble (the *stored* prompt
stays the caller's original), argv composition with the optional bwrap
wrapper, and the stub record. -/
def spinPhase1 (env : SpinEnv) (st : Store) (a : SpinArgs) :
    Except String (Store × SpinCtx) :=
  if count_running st.records ≥ env.maxConcurrent then
    .error ("Error: Max " ++ toString env.maxConcurrent ++
      " concurrent spools. Wait for some to complete.")
  else if !strTruthy a.working_dir then
    .error "Error: working_dir required. Pass the project directory."
  else
    let cwd0 := a.working_dir.getD ""
    let resolved := resolve_permission a.permission a.allowed_tools
    let use_shard := a.shard || resolved.2
    if use_shard && env.spawnShardRes.isNone then
      .error "Error: Failed to create SHARD worktree. Check git repo status."
    else
      let shard_info : Option Shard := if use_shard then env.spawnShardRes else none
      let cwd := match shard_info with
        | some si => si.worktree_path
        | none => cwd0
      let effective_prompt :=
        if env.hasSkein && shard_info.isSome && !a.skeinless then
          skeinPreamble a.prompt env.newId
            ((shard_info.map (·.shard_id)).getD env.newId) ++ a.prompt
        else if shard_info.isSome then
          shardPreambleText ++ a.prompt
        else a.prompt
      let claude_cmd :=
        ["claude", "-p", effective_prompt, "--output-format", "json"]
          ++ (if strTruthy a.model then ["--model", a.model.getD ""] else [])
          ++ (if permModeBypass a.permission then
                ["--permission-mode", "bypassPermissions"]
              else ["--permission-mode", "acceptEdits"])
          ++ (if strTruthy a.system_prompt then
                ["--system-prompt", a.system_prompt.getD ""] else [])
          ++ (if strTruthy resolved.1 then
                ["--allowedTools", resolved.1.getD ""] else [])
      let cmd :=
        if shard_info.isSome && env.bwrapAvail then
          ["bwrap", "--ro-bind", "/", "/", "--bind", cwd, cwd, "--bind", "/tmp",
            "/tmp", "--dev", "/dev", "--proc", "/proc", "--chdir", cwd]
            ++ env.gitBinds ++ env.configBinds ++ claude_cmd
        else claude_cmd
      let tag_list :=
        if strTruthy a.tags then ((a.tags.getD "").splitOn ",").map (·.trim) else []
      let record : Spool := {
        id := env.newId
        status := "pending"
        prompt := a.prompt
        result := none
        session_id := none
        working_dir := cwd
        allowed_tools := resolved.1
        permission := some (if strTruthy a.permission then a.permission.getD "" else "careful")
        system_prompt := a.system_prompt
        tags := tag_list
        shard := shard_info
        model := a.model
        timeout := a.timeout
        created_at := env.now
        completed_at := none
        pid := none
        error := none }
      .ok (write_spool st record, ⟨record, cmd, cwd⟩)

/-- `_spin_sync` from `_spawn_detached` to the `running` `_write_spool`
(lines 836-842); a daemon monitor thread is then started for the id. -/
def spinPhase2 (env : SpinEnv) (st : Store) (ctx : SpinCtx) : String × Store :=
  let st1 := spawn_detached_fs st env.newId ctx.cmd ctx.cwd
  let rec2 := { ctx.record with pid := some env.newPid, status := "running" }
  (env.newId, write_spool st1 rec2)

/-- `_spin_sync`, run without interleaving: phase 1 then phase 2. -/
def spin_sync (env : SpinEnv) (st : Store) (a : SpinArgs) : String × Store :=
  match spinPhase1 env st a with
  | .error e => (e, st)
  | .ok (st1, ctx) => spinPhase2 env st1 ctx

/-- The external world of one `_respin_sync` call.  `daemonCwd` is
`os.getcwd()` — the daemon process's own working directory. -/
structure RespinEnv where
  maxConcurrent : Nat
  daemonCwd : String
  newId : String
  newPid : Int
  now : Int
deriving Repr

/-- `_respin_sync` through the `pending` write (lines 975-1011): the
same running-count admission check, the `--resume` argv, `cwd =
os.getcwd()`, the transcript-availability probe, and the stub record —
whose stored `prompt` is `"Continue <session_id>: <prompt>"`. -/
def respinPhase1 (env : RespinEnv) (st : Store) (sessionId prompt : String) :
    Except String (Store × SpinCtx) :=
  if count_running st.records ≥ env.maxConcurrent then
    .error ("Error: Max " ++ toString env.maxConcurrent ++
      " concurrent spools. Wait for some to complete.")
  else
    let cmd := ["claude", "-p", prompt, "--resume", sessionId, "--output-format", "json"]
    let cwd := env.daemonCwd
    let original := find_spool_by_session st.records (some (.str sessionId))
    let transcript_available :=
      match original with
      | some o => (fileGet st.transcripts o.id).isSome
      | none => false
    let record : Spool := {
      id := env.newId
      status := "pending"
      prompt := "Continue " ++ sessionId ++ ": " ++ prompt
      result := none
      session_id := some (.str sessionId)
      working_dir := cwd
      allowed_tools := none
      system_prompt := none
      transcript_fallback_available := transcript_available
      created_at := env.now
      completed_at := none
      pid := none
      cost := none
      error := none }
    .ok (write_spool st record, ⟨record, cmd, cwd⟩)

/-- `_respin_sync` spawn plus `running` write (lines 1013-1018). -/
def respinPhase2 (env : RespinEnv) (st : Store) (ctx : SpinCtx) : String × Store :=
  let st1 := spawn_detached_fs st env.newId ctx.cmd ctx.cwd
  let rec2 := { ctx.record with pid := some env.newPid, status := "running" }
  (env.newId, write_spool st1 rec2)

/-- `_respin_sync`, run without interleaving. -/
def respin_sync (env : RespinEnv) (st : Store) (sessionId prompt : String) :
    String × Store :=
  match respinPhase1 env st sessionId prompt with
  | .error e => (e, st)
  | .ok (st1, ctx) => respinPhase2 env st1 ctx

/-! ## Shard merge / abandon (`shard_merge` lines 1920-2020,
`shard_abandon` lines 2024-2104, `_cleanup_shard` lines 287-320)

Paths are modelled as component lists of canonical absolute paths:
`Path(s).resolve()` becomes `pathComponents s` (inputs are taken to be
absolute and symlink-free), `p in q.parents` becomes `isAncestor`,
`.parent.parent` becomes `dropLast.dropLast`.  Git subprocesses are
logged as `GitCall`s; their observable outputs come from the
`ShardOpEnv` oracle (runs in which no subprocess call raises). -/

/-- Split a character list at every occurrence of `c`. -/
def splitChar (c : Char) : List Char → List (List Char)
  | [] => [[]]
  | h :: t =>
    let r := splitChar c t
    if h == c then [] :: r
    else
      match r with
      | [] => [[h]]
      | g :: gs => (h :: g) :: gs

/-- Components of an absolute path. -/
def pathComponents (s : String) : List String :=
  ((splitChar '/' s.data).map (fun cs => (⟨cs⟩ : String))).filter (fun c => c != "")

/-- Render a component list back to an absolute path string. -/
def renderPath (cs : List String) : String :=
  "/" ++ String.intercalate "/" cs

/-- `a ∈ b.parents`: `a` is a strict ancestor directory of `b`. -/
def isAncestor (a b : List String) : Bool :=
  decide (a.length < b.length) && b.take a.length == a

/-- One git subprocess invocation (argv summarized, plus its cwd). -/
inductive GitCall where
  | statusPorcelain (cwd : String)
  | mergeBranch (branch : String) (message : String) (cwd : String)
  | worktreeRemove (path : String) (cwd : String)
  | branchDelete (branch : String) (cwd : String)
  | worktreePrune (cwd : String)
deriving Repr, DecidableEq

/-- `_cleanup_shard(shard_info, working_dir, keep_branch)`: remove the
worktree, optionally delete the branch, prune.  In this source the git
return codes are ignored; only a falsy `worktree_path` yields `False`
(subprocess exceptions, not modelled here, are the other `False` path). -/
def cleanup_shard (si : Shard) (working_dir : String) (keep_branch : Bool) :
    Bool × List GitCall :=
  if si.worktree_path == "" then (false, [])
  else
    (true,
      [GitCall.worktreeRemove si.worktree_path working_dir]
        ++ (if !keep_branch && si.branch_name != "" then
              [GitCall.branchDelete si.branch_name working_dir] else [])
        ++ [GitCall.worktreePrune working_dir])

/-- External observations of one merge/abandon call: directory
existence, the `git status --porcelain` output inside the worktree, the
`git merge` exit code and stderr, the `_close_tender_folios` message,
and the clock. -/
structure ShardOpEnv where
  dirExists : String → Bool
  porcelainOut : String := ""
  mergeExit : Int := 0
  mergeStderr : String := ""
  tenderMsg : Option String := none
  now : Int := 0

/-- Reply of both shard tools when `caller_cwd` is falsy. -/
def msgCallerCwdRequired : String :=
  "Error: caller_cwd required. Pass your current working directory to prevent deleting a worktree you're inside of."

/-- Reply when the spool record is missing. -/
def msgUnknownSpool (id : String) : String :=
  "Error: Unknown spool_id '" ++ id ++ "'"

/-- `shard_merge`'s refusal while the spool is running. -/
def msgSpoolRunning (id : String) : String :=
  "Error: Spool " ++ id ++ " is still running. Wait for completion."

/-- Reply when the spool has no shard. -/
def msgNoShard (id : String) : String :=
  "Error: Spool " ++ id ++ " has no shard"

/-- `shard_merge`'s reply when the worktree directory is gone. -/
def msgWorktreeGone (wt : String) : String :=
  "Error: Worktree no longer exists: " ++ wt

/-- `shard_abandon`'s reply when the record has no worktree path. -/
def msgNoWorktreePath : String :=
  "Error: No worktree path in shard info"

/-- The caller-inside-the-worktree refusal of both tools. -/
def msgInsideWorktree (wt_path : List String) : String :=
  "Error: Cannot delete worktree - your working directory is inside it. Run `cd " ++
    renderPath (wt_path.dropLast.dropLast) ++ "` first."

/-- The someone-else-still-running-here refusal of both tools. -/
def msgOtherRunning (otherId : String) : String :=
  "Error: Spool " ++ otherId ++
    " is still running in this worktree. Wait for it to complete or use spin_drop() first."

/-- The running-in-this-worktree scan shared by merge and abandon
(`other.get("working_dir","")` truthy and resolving to the worktree). -/
def otherRunningHere (records : List Spool) (spool_id : String)
    (wt_path : List String) : Option Spool :=
  records.find? (fun o =>
    o.status == "running" && o.id != spool_id &&
      o.working_dir != "" && pathComponents o.working_dir == wt_path)

/-- `shard_merge(spool_id, keep_branch, caller_cwd)`.  Returns the
reply string, the store after any record write, and the git calls
issued. -/
def shard_merge (env : ShardOpEnv) (st : Store) (spool_id : String)
    (keep_branch : Bool) (caller_cwd : Option String) :
    String × Store × List GitCall :=
  if !strTruthy caller_cwd then
    (msgCallerCwdRequired, st, [])
  else
    match read_spool st spool_id with
    | none => (msgUnknownSpool spool_id, st, [])
    | some sp =>
      if sp.status == "running" then
        (msgSpoolRunning spool_id, st, [])
      else
        match sp.shard with
        | none => (msgNoShard spool_id, st, [])
        | some si =>
          if si.worktree_path == "" || !env.dirExists si.worktree_path then
            (msgWorktreeGone si.worktree_path, st, [])
          else
            let caller_path := pathComponents (caller_cwd.getD "")
            let wt_path := pathComponents si.worktree_path
            if caller_path == wt_path || isAncestor wt_path caller_path then
              (msgInsideWorktree wt_path, st, [])
            else
              match otherRunningHere st.records spool_id wt_path with
              | some other =>
                (msgOtherRunning other.id, st, [])
              | none =>
                let main_repo := renderPath (wt_path.dropLast.dropLast)
                let calls0 := [GitCall.statusPorcelain si.worktree_path]
                if !isBlank env.porcelainOut then
                  ("Error: Shard has uncommitted changes. Commit or discard them first.", st, calls0)
                else
                  let mergeMsg := "Merge shard " ++ spool_id ++ ": " ++ strTake sp.prompt 50
                  let calls1 := calls0 ++ [GitCall.mergeBranch si.branch_name mergeMsg main_repo]
                  if env.mergeExit != 0 then
                    ("Error: Merge failed: " ++ env.mergeStderr, st, calls1)
                  else
                    let cleanup := cleanup_shard si main_repo keep_branch
                    let sp' := { sp with
                      shard := some { si with merged := true, merged_at := some env.now } }
                    let msg := "Successfully merged shard " ++ spool_id ++ " to master" ++
                      (match env.tenderMsg with
                        | some m => ". " ++ m
                        | none => "")
                    (msg, write_spool st sp', calls1 ++ cleanup.2)

/-- `shard_abandon(spool_id, keep_branch, caller_cwd)`.  Note the
inside-the-worktree guard is itself gated on `wt_path.exists()`: when
the worktree directory is gone the guard is skipped entirely. -/
def shard_abandon (env : ShardOpEnv) (st : Store) (spool_id : String)
    (keep_branch : Bool) (caller_cwd : Option String) :
    String × Store × List GitCall :=
  if !strTruthy caller_cwd then
    (msgCallerCwdRequired, st, [])
  else
    match read_spool st spool_id with
    | none => (msgUnknownSpool spool_id, st, [])
    | some sp =>
      match sp.shard with
      | none => (msgNoShard spool_id, st, [])
      | some si =>
        if si.worktree_path == "" then
          (msgNoWorktreePath, st, [])
        else
          let caller_path := pathComponents (caller_cwd.getD "")
          let wt_path := pathComponents si.worktree_path
          if env.dirExists si.worktree_path &&
              (caller_path == wt_path || isAncestor wt_path caller_path) then
            (msgInsideWorktree wt_path, st, [])
          else
            match otherRunningHere st.records spool_id wt_path with
            | some other =>
              (msgOtherRunning other.id, st, [])
            | none =>
              let main_repo := renderPath (wt_path.dropLast.dropLast)
              let sp1 :=
                if sp.status == "running" then
                  { sp with
                    status := "error"
                    error := some "Shard abandoned"
                    completed_at := some env.now }
                else sp
              let cleanup := cleanup_shard si main_repo keep_branch
              if cleanup.1 then
                let sp2 := { sp1 with
                  shard := some { si with abandoned := true, abandoned_at := some env.now } }
                ("Abandoned shard " ++ spool_id ++ (if keep_branch then " (branch kept)" else ""),
                  write_spool st sp2, cleanup.2)
              else
                ("Warning: Shard cleanup may have been incomplete for " ++ spool_id,
                  st, cleanup.2)

/-! ## Specification-side definition for the permission-resolution claim -/

/-- The profile half of the resolution table, written from the spec's
words as amended: a missing **or empty** `permission` defaults to
`careful`; among the table's profiles, `auto_shard` is true exactly for
`shard` and `careful+shard` (the profiles named `shard` or ending in
`+shard`); unknown names fall back to `careful`'s tools with
`auto_shard` false. -/
def resolveProfileSpec (permission : Option String) : Option String × Bool :=
  let p := match permission with
    | none => "careful"
    | some q => if q == "" then "careful" else q
  match profilesLookup p with
  | some tools => (tools, p == "shard" || p == "careful+shard")
  | none => ((profilesLookup "careful").getD none, false)

/-- The resolution rule, written from the spec's words as amended: a
**non-empty** explicit `allowed_tools` wins, is returned unchanged and
suppresses auto-shard; an empty-string `allowed_tools` is treated as
absent; otherwise the profile decides. -/
def resolvePermissionSpec (permission allowed_tools : Option String) :
    Option String × Bool :=
  match allowed_tools with
  | some s => if s != "" then (some s, false) else resolveProfileSpec permission
  | none => resolveProfileSpec permission

/-! ## Concrete fixtures used by the per-claim evaluations -/

/-- A spin environment with `SPINDLE_MAX_CONCURRENT = 1`, no SKEIN, no
bwrap, for the admission-race schedule. -/
def c1Env (idStr : String) (pid : Int) : SpinEnv :=
  { maxConcurrent := 1, newId := idStr, newPid := pid, now := 0 }

/-- A minimal valid spin call. -/
def c1Args : SpinArgs := { prompt := "task", working_dir := some "/tmp/p" }

/-- The interleaving of two `spin` calls under `MAX_CONCURRENT = 1`:
both run their admission check and pending write (phase 1) before
either spawns and stamps `running` (phase 2) — the schedule the source
permits because no lock is held between the check and the writes. -/
def c1Run : Store :=
  match spinPhase1 (c1Env "aa" 11) {} c1Args with
  | .error _ => {}
  | .ok (st1, ctxA) =>
    match spinPhase1 (c1Env "bb" 12) st1 c1Args with
    | .error _ => st1
    | .ok (st2, ctxB) =>
      (spinPhase2 (c1Env "bb" 12) (spinPhase2 (c1Env "aa" 11) st2 ctxA).2 ctxB).2

/-- A store already holding one `pending` record. -/
def c1PendingStore : Store :=
  { records := [{ id := "pp", status := "pending", prompt := "t" }] }

/-- A spool already finalized as `complete` whose 1-second deadline has
passed (the child finished near the deadline and a concurrent caller
finalized it between two monitor polls). -/
def c2Store : Store :=
  { records := [{ id := "t1", status := "complete", prompt := "p",
                  result := some (.str "r"), timeout := some 1, created_at := 0,
                  pid := some 5, completed_at := some 1 }] }

/-- The child's stdout: a JSON result document. -/
def c3Json : String := "\x7b\"result\": \"ok\"\x7d"

/-- `json.loads` on the inputs of the double-finalize run. -/
def c3Jl : String → Option JVal :=
  fun s => if s = c3Json then some (.obj [("result", .str "ok")]) else none

/-- A running spool with a dead pid whose stdout holds `c3Json`. -/
def c3Store : Store :=
  { records := [{ id := "cc", status := "running", prompt := "p", pid := some 9 }],
    stdoutFiles := [("cc", c3Json)],
    stderrFiles := [("cc", "")] }

/-- Liveness oracle: the child is gone. -/
def c3Alive : Int → Bool := fun _ => false

/-- What each of the two concurrent finalizers decides to write. -/
def c3Plan : FinalPlan :=
  ⟨{ id := "cc", status := "complete", prompt := "p", pid := some 9,
     result := some (.str "ok"), session_id := none, cost := none }, c3Json⟩

/-- `json.loads` for the non-object-JSON stdout counterexample. -/
def c4Jl : String → Option JVal :=
  fun s => if s = "[1]" then some (.arr [.num 1]) else none

/-- A running spool with a dead pid whose stdout is the JSON array
`[1]`. -/
def c4Store : Store :=
  { records := [{ id := "d1", status := "running", prompt := "p", pid := some 7 }],
    stdoutFiles := [("d1", "[1]")],
    stderrFiles := [("d1", "")] }

/-- The record of the C4 witness store. -/
def c4wRecord : Spool := { id := "w4", status := "running", prompt := "p", pid := some 1 }

/-- Witness store: a running spool with a dead pid and no output files. -/
def c4wStore : Store := { records := [c4wRecord] }

/-- A store holding one `pending` record. -/
def c5Store : Store :=
  { records := [{ id := "p1", status := "pending", prompt := "p" }] }

/-- A running record that has not been pid-stamped yet. -/
def c5NoPidStore : Store :=
  { records := [{ id := "q1", status := "running", prompt := "p" }] }

/-- A running record whose child is still alive and has produced no
stdout file yet. -/
def c5AliveStore : Store :=
  { records := [{ id := "q2", status := "running", prompt := "p", pid := some 3 }] }

/-- The respin environment of the daemon-cwd evaluation: the daemon
process's working directory is its install directory. -/
def c7REnv : RespinEnv :=
  { maxConcurrent := 15, daemonCwd := "/opt/spindle-install", newId := "rr",
    newPid := 21, now := 0 }

/-- The respin environment of the stored-prompt counterexample. -/
def c8REnv : RespinEnv :=
  { maxConcurrent := 15, daemonCwd := "/home/u/proj", newId := "rr8",
    newPid := 22, now := 0 }

/-- Witness fixture for the stored-prompt theorem: the context
`respinPhase1` produces for `respin("s1", "more")`. -/
def w8Ctx : SpinCtx :=
  match respinPhase1 c8REnv {} "s1" "more" with
  | .ok r => r.2
  | .error _ => ⟨{ id := "", status := "", prompt := "" }, [], ""⟩

/-- Witness fixture: the store `respinPhase1` leaves for
`respin("s1", "more")`. -/
def w8St1 : Store :=
  match respinPhase1 c8REnv {} "s1" "more" with
  | .ok r => r.1
  | .error _ => {}

/-- A spin environment whose shard spawn succeeds (no SKEIN, no bwrap). -/
def w8SpinEnv : SpinEnv :=
  { maxConcurrent := 5, newId := "s8", newPid := 9, now := 0,
    spawnShardRes := some { worktree_path := "/r/worktrees/w",
                            branch_name := "shard-w", shard_id := "w" } }

/-- A sharded spin call. -/
def w8SpinArgs : SpinArgs := { prompt := "fix", working_dir := some "/r", shard := true }

/-- Witness fixture: what `spinPhase1` produces for the sharded call. -/
def w8SpinRes : Store × SpinCtx :=
  match spinPhase1 w8SpinEnv {} w8SpinArgs with
  | .ok r => r
  | .error _ => ({}, ⟨{ id := "", status := "", prompt := "" }, [], ""⟩)

/-- The shard of the abandon-guard counterexample. -/
def c9Shard : Shard :=
  { worktree_path := "/repo/worktrees/wt1", branch_name := "shard-wt1", shard_id := "wt1" }

/-- A completed sharded spool whose worktree directory has been deleted
out of band (only the branch is left). -/
def c9Store : Store :=
  { records := [{ id := "ab", status := "complete", prompt := "p",
                  working_dir := "/repo/worktrees/wt1", shard := some c9Shard }] }

/-- Filesystem oracle: the worktree directory no longer exists. -/
def c9Env : ShardOpEnv := { dirExists := fun _ => false, now := 7 }

/-- Filesystem oracle for the C9 witness: the worktree directory exists. -/
def w9Env : ShardOpEnv := { dirExists := fun _ => true, now := 7 }

/-- The running respin spool of the transcript-fallback run: it resumes
session `s1` and its stderr already shows the expired-session sentinel. -/
def w10Spool : Spool :=
  { id := "r10", status := "running", prompt := "Continue s1: go on",
    session_id := some (.str "s1"), working_dir := "/home/u/proj",
    pid := some 31, created_at := 0 }

/-- The originating spool that first produced session `s1`. -/
def w10Orig : Spool :=
  { id := "o10", status := "complete", prompt := "start",
    session_id := some (.str "s1"), created_at := 0 }

/-- Store of the transcript-fallback run: the respin spool, its
originating spool with a saved transcript, and the sentinel in the
respin spool's stderr. -/
def w10Store : Store :=
  { records := [w10Orig, w10Spool],
    stderrFiles := [("r10", "No conversation found with session ID s1")],
    transcripts := [("o10", "TR")] }

/-! ## Helper lemmas -/

/-- A record found under an id carries that id. -/
theorem read_spool_some_id {st : Store} {id : String} {sp : Spool}
    (h : read_spool st id = some sp) : sp.id = id := by
  have := List.find?_some h
  simpa using this

/-- `List.find?` after the map-replace of `_write_spool` finds the new
record. -/
theorem find?_map_replace (l : List Spool) (sp : Spool)
    (h : l.any (fun r => r.id == sp.id) = true) :
    (l.map (fun r => if r.id == sp.id then sp else r)).find?
      (fun r => r.id == sp.id) = some sp := by
  induction l with
  | nil => simp at h
  | cons a l ih =>
    by_cases ha : (a.id == sp.id) = true
    · simp [List.find?, ha]
    · have ha' : (a.id == sp.id) = false := by
        simpa using ha
      simp only [List.any_cons, ha', Bool.false_or] at h
      simpa [List.find?, ha'] using ih h

/-- Reading back a freshly written record. -/
theorem read_spool_write_self {st : Store} {sp : Spool} {id : String}
    (h : sp.id = id) : read_spool (write_spool st sp) id = some sp := by
  subst h
  unfold read_spool write_spool
  by_cases hmem : (st.records.any (fun r => r.id == sp.id)) = true
  · simpa [hmem] using find?_map_replace st.records sp hmem
  · have hmem' : (st.records.any (fun r => r.id == sp.id)) = false := by
      simpa using hmem
    simp only [hmem', Bool.false_eq_true, if_false]
    rw [List.find?_append]
    have hnone : st.records.find? (fun r => r.id == sp.id) = none := by
      rw [List.find?_eq_none]
      intro x hx
      intro hxid
      have : x.id == sp.id := hxid
      have : (st.records.any (fun r => r.id == sp.id)) = true :=
        List.any_eq_true.mpr ⟨x, hx, this⟩
      rw [hmem'] at this
      exact Bool.false_ne_true this
    simp [hnone, List.find?]

/-- `_write_spool` touches only the records and the write log. -/
theorem write_spool_files (st : Store) (sp : Spool) :
    (write_spool st sp).stdoutFiles = st.stdoutFiles ∧
    (write_spool st sp).stderrFiles = st.stderrFiles ∧
    (write_spool st sp).transcripts = st.transcripts := ⟨rfl, rfl, rfl⟩

/-- Reading a per-id file just deleted yields nothing. -/
theorem fileGet_del_self (files : List (String × String)) (id : String) :
    fileGet (fileDel files id) id = none := by
  unfold fileGet fileDel
  have : (files.filter (fun p => !(p.1 == id))).find? (fun p => p.1 == id) = none := by
    rw [List.find?_eq_none]
    intro x hx
    have := List.of_mem_filter hx
    simp only [Bool.not_eq_true'] at this
    simp [this]
  simp [this]

/-- A status produced by the result-parsing block is `complete` or
`error` — never `running`. -/
theorem finalize_decision_status {jl : String → Option JVal} {sp sp1 : Spool}
    {stdout stderr : String}
    (h : finalize_decision jl sp stdout stderr = some sp1) :
    sp1.status = "complete" ∨ sp1.status = "error" := by
  unfold finalize_decision at h
  rcases hj : jl stdout with _ | v
  · rw [hj] at h
    by_cases h1 : (!isBlank stdout) = true
    · rw [if_pos h1] at h
      cases h
      exact Or.inl rfl
    · rw [if_neg h1] at h
      by_cases h2 : (!isBlank stderr) = true
      · rw [if_pos h2] at h
        cases h
        exact Or.inr rfl
      · rw [if_neg h2] at h
        cases h
        exact Or.inr rfl
  · rw [hj] at h
    cases v with
    | obj fields => cases h; exact Or.inl rfl
    | null => cases h
    | bool b => cases h
    | num n => cases h
    | str s => cases h
    | arr xs => cases h

/-- The result-parsing block preserves the record's id. -/
theorem finalize_decision_id {jl : String → Option JVal} {sp sp1 : Spool}
    {stdout stderr : String}
    (h : finalize_decision jl sp stdout stderr = some sp1) :
    sp1.id = sp.id := by
  unfold finalize_decision at h
  rcases hj : jl stdout with _ | v
  · rw [hj] at h
    by_cases h1 : (!isBlank stdout) = true
    · rw [if_pos h1] at h; cases h; rfl
    · rw [if_neg h1] at h
      by_cases h2 : (!isBlank stderr) = true
      · rw [if_pos h2] at h; cases h; rfl
      · rw [if_neg h2] at h; cases h; rfl
  · rw [hj] at h
    cases v with
    | obj fields => cases h; rfl
    | null => cases h
    | bool b => cases h
    | num n => cases h
    | str s => cases h
    | arr xs => cases h

/-- The write half always appends exactly one record write. -/
theorem finalizeWrite_writes (now : Int) (st : Store) (id : String) (p : FinalPlan) :
    (finalizeWrite now st id p).writes =
      st.writes ++ [{ p.newRecord with completed_at := some now }] := by
  unfold finalizeWrite
  dsimp only
  split
  · simp [write_spool]
  · simp [write_spool]

/-- An early `true` return of the read half can only come from a
missing record or a non-`running` status. -/
theorem finalizeRead_true_cases {jl : String → Option JVal} {alive : Int → Bool}
    {st : Store} {id : String}
    (h : finalizeRead jl alive st id = some (.inl true)) :
    read_spool st id = none ∨
      ∃ sp, read_spool st id = some sp ∧ sp.status ≠ "running" := by
  unfold finalizeRead at h
  rcases hr : read_spool st id with _ | sp
  · exact Or.inl rfl
  · rw [hr] at h
    by_cases hrun : sp.status = "running"
    · exfalso
      have hbne : (sp.status != "running") = false := by simp [hrun]
      simp only [hbne, Bool.false_eq_true, if_false] at h
      split at h
      · simp at h
      · split at h
        · simp at h
        · split at h
          · simp at h
          · split at h
            · simp at h
            · split at h
              · simp at h
              · simp at h
    · exact Or.inr ⟨sp, rfl, hrun⟩

/-- `read_spool` depends only on the record files. -/
theorem read_spool_eq_records {st st' : Store} (h : st.records = st'.records)
    (id : String) : read_spool st id = read_spool st' id := by
  unfold read_spool
  rw [h]

/-- The write half changes the record files exactly as `_write_spool`
does. -/
theorem finalizeWrite_records (now : Int) (st : Store) (id : String) (q : FinalPlan) :
    (finalizeWrite now st id q).records =
      (write_spool st { q.newRecord with completed_at := some now }).records := by
  unfold finalizeWrite
  dsimp only
  split
  · rfl
  · rfl

/-- The write half deletes the `<id>.stdout` sibling. -/
theorem finalizeWrite_stdoutFiles (now : Int) (st : Store) (id : String) (q : FinalPlan) :
    (finalizeWrite now st id q).stdoutFiles = fileDel st.stdoutFiles id := by
  unfold finalizeWrite
  dsimp only
  split
  · rfl
  · rfl

/-- The write half deletes the `<id>.stderr` sibling. -/
theorem finalizeWrite_stderrFiles (now : Int) (st : Store) (id : String) (q : FinalPlan) :
    (finalizeWrite now st id q).stderrFiles = fileDel st.stderrFiles id := by
  unfold finalizeWrite
  dsimp only
  split
  · rfl
  · rfl

/-- The write half copies stdout to the transcript exactly when the new
record's `session_id` is truthy and stdout is non-empty. -/
theorem finalizeWrite_transcripts (now : Int) (st : Store) (id : String) (q : FinalPlan) :
    (finalizeWrite now st id q).transcripts =
      if (jtruthyOpt q.newRecord.session_id && q.stdout != "") = true then
        fileSet st.transcripts id q.stdout
      else st.transcripts := by
  unfold finalizeWrite
  dsimp only
  split
  · simp_all [write_spool]
  · simp_all [write_spool]

/-- `List.find?` after the map-replace of `fileSet` finds the new pair. -/
theorem find?_pair_replace (files : List (String × String)) (id c : String)
    (h : files.any (fun p => p.1 == id) = true) :
    (files.map (fun p => if p.1 == id then (id, c) else p)).find?
      (fun p => p.1 == id) = some (id, c) := by
  induction files with
  | nil => simp at h
  | cons a l ih =>
    by_cases ha : (a.1 == id) = true
    · simp [List.find?, ha]
    · have ha' : (a.1 == id) = false := by simpa using ha
      simp only [List.any_cons, ha', Bool.false_or] at h
      simpa [List.find?, ha'] using ih h

/-- Reading back a freshly (re)written per-id file. -/
theorem fileGet_set_self (files : List (String × String)) (id c : String) :
    fileGet (fileSet files id c) id = some c := by
  unfold fileGet fileSet
  by_cases h : (files.any (fun p => p.1 == id)) = true
  · simp only [h, if_true]
    rw [find?_pair_replace files id c h]
    rfl
  · have h' : (files.any (fun p => p.1 == id)) = false := Bool.eq_false_iff.mpr h
    simp only [h', Bool.false_eq_true, if_false]
    rw [List.find?_append]
    have hnone : files.find? (fun p => p.1 == id) = none := by
      rw [List.find?_eq_none]
      intro x hx hxid
      have : (files.any (fun p => p.1 == id)) = true :=
        List.any_eq_true.mpr ⟨x, hx, hxid⟩
      rw [h'] at this
      exact Bool.false_ne_true this
    simp [hnone, List.find?]

/-- Prefixing a non-empty string changes a string. -/
theorem append_ne_self {x : String} (y : String) (hx : x.length ≠ 0) :
    x ++ y ≠ y := by
  intro h
  have := congrArg String.length h
  rw [String.length_append] at this
  omega

/-! ## Claim theorems -/

/-- Claim C1 (code bug, evaluated at the failing schedule): admission
checks only `_count_running` — which counts `status == "running"` and
not `pending` — and holds no lock between the check and the record
writes.  Under `MAX_CONCURRENT = 1`, the interleaving in which two
`spin` calls both pass admission before either stamps `running`
(`c1Run`) ends with two pending-or-running records, violating the
claimed bound `|pending ∪ running| ≤ MAX_CONCURRENT`; and a store
already holding one pending record (the claimed full capacity) still
admits a further spin because the pending record occupies no slot. -/
theorem spindle_C1_admission_race :
    (c1Run.records.map (fun sp => (sp.id, sp.status))) =
      [("aa", "running"), ("bb", "running")] ∧
    countPendingRunning c1Run.records = 2 ∧
    1 < countPendingRunning c1Run.records ∧
    countPendingRunning c1PendingStore.records = 1 ∧
    (spinPhase1 (c1Env "cc" 13) c1PendingStore c1Args).isOk = true :=
  ⟨rfl, rfl, by decide, rfl, rfl⟩

/-- Claim C2 (code bug, evaluated at the failing input): the monitor's
timeout branch does not re-check that the record is still `running`.
On a record already terminal (`complete`) whose 1-second deadline has
passed, one monitor iteration overwrites the terminal status with
`timeout` — a transition out of a terminal state. -/
theorem spindle_C2_terminal_overwritten :
    (read_spool c2Store "t1").map (fun sp => sp.status) = some "complete" ∧
    isTerminal "complete" = true ∧
    (match monitor_iterate (fun _ => none) (fun _ => false) 10 none c2Store "t1" with
      | some (.exitTimeout, st') =>
        (read_spool st' "t1").map (fun sp => (sp.status, sp.error))
      | _ => none) = some ("timeout", some "Timeout after 1s") :=
  ⟨rfl, rfl, rfl⟩

/-- Claim C3 (code bug, evaluated at the failing schedule): this
source's `_check_and_finalize_spool` acquires no `<id>.lock` — no lock
exists anywhere in the file — so two finalizers of the same running
spool (dead pid, stdout a JSON result) can both pass the read half and
then both perform the terminal `_write_spool`: two authoritative
terminal writes, and no contended caller ever returns `false`. -/
theorem spindle_C3_double_write :
    finalizeRead c3Jl c3Alive c3Store "cc" = some (.inr c3Plan) ∧
    ((finalizeWrite 1 (finalizeWrite 0 c3Store "cc" c3Plan) "cc" c3Plan).writes.map
      (fun sp => sp.status)) = ["complete", "complete"] ∧
    (finalizeWrite 1 (finalizeWrite 0 c3Store "cc" c3Plan) "cc" c3Plan).writes.length = 2 :=
  ⟨rfl, rfl, rfl⟩

/-- Claim C4 counterexample: a running spool with a dead pid whose
stdout is the JSON array `[1]` — non-empty, parseable JSON without a
`result` key.  The claim requires `result = stdout`, `status =
complete`, the record persisted and the siblings deleted; the code
instead raises an uncaught `AttributeError` (`data.get` on a list), so
finalization returns no value and the record stays `running`. -/
theorem spindle_C4_counterexample :
    (read_spool c4Store "d1").map (fun sp => sp.status) = some "running" ∧
    c4Jl "[1]" = some (.arr [.num 1]) ∧
    check_and_finalize_spool c4Jl (fun _ => false) 3 c4Store "d1" = none :=
  ⟨rfl, rfl, rfl⟩

/-- Claim C5 counterexample: `check_and_finalize` returns `true` both
for a spool id with no record at all and for a record still `pending` —
the two cases the claim says must not yield `true`. -/
theorem spindle_C5_counterexample :
    check_and_finalize_spool (fun _ => none) (fun _ => false) 0 {} "nope" =
      some (true, {}) ∧
    (read_spool c5Store "p1").map (fun sp => sp.status) = some "pending" ∧
    check_and_finalize_spool (fun _ => none) (fun _ => false) 0 c5Store "p1" =
      some (true, c5Store) :=
  ⟨rfl, rfl, rfl⟩

/-- Claim C6 counterexample: with `permission = "shard"` and the
explicit argument `allowed_tools = ""`, the claim requires the explicit
argument to win — result `("", auto_shard = false)` — but the code's
truthiness test treats `""` as absent and returns the shard profile
`(None, auto_shard = true)`. -/
theorem spindle_C6_counterexample :
    resolve_permission (some "shard") (some "") = (none, true) ∧
    resolve_permission (some "shard") (some "") ≠ (some "", false) :=
  ⟨rfl, by decide⟩

/-- Claim C7 (code bug, evaluated at the failing input): `spin` without
`working_dir` is indeed refused before any record is created, but
`_respin_sync` sets the child's cwd to `os.getcwd()` — the daemon's own
working directory — spawns there, and stores it as the spool's
`working_dir`, contradicting the claim that no spawn path uses the
daemon's cwd. -/
theorem spindle_C7_daemon_cwd :
    spin_sync { maxConcurrent := 15, newId := "ss", newPid := 20, now := 0 } {}
        { prompt := "x" } =
      ("Error: working_dir required. Pass the project directory.", {}) ∧
    ((respin_sync c7REnv {} "s1" "more").2.spawns.map (fun t => t.2.2)) =
      ["/opt/spindle-install"] ∧
    (read_spool (respin_sync c7REnv {} "s1" "more").2 "rr").map
      (fun sp => sp.working_dir) = some "/opt/spindle-install" :=
  ⟨rfl, rfl, rfl⟩

/-- Claim C8 counterexample: `respin("s1", "more")` stores
`"Continue s1: more"` as the spool's `prompt`, not the caller's
original task text `"more"`. -/
theorem spindle_C8_counterexample :
    (read_spool (respin_sync c8REnv {} "s1" "more").2 "rr8").map
      (fun sp => sp.prompt) = some "Continue s1: more" ∧
    ("Continue s1: more" : String) ≠ "more" :=
  ⟨rfl, by decide⟩

/-- Claim C9 counterexample: `shard_abandon`'s caller-inside-the-worktree
guard is gated on the worktree directory existing.  For a sharded spool
whose worktree directory is gone (branch still present), a call with
`caller_cwd` strictly inside the worktree path is *not* refused: it
returns a success message, runs git cleanup — deleting the branch — and
marks the record abandoned, while the claim requires an error string,
no git activity and an unchanged record. -/
theorem spindle_C9_counterexample :
    isAncestor (pathComponents "/repo/worktrees/wt1")
      (pathComponents "/repo/worktrees/wt1/sub") = true ∧
    (shard_abandon c9Env c9Store "ab" false (some "/repo/worktrees/wt1/sub")).1 =
      "Abandoned shard ab" ∧
    (shard_abandon c9Env c9Store "ab" false (some "/repo/worktrees/wt1/sub")).2.2 =
      [GitCall.worktreeRemove "/repo/worktrees/wt1" "/repo",
       GitCall.branchDelete "shard-wt1" "/repo",
       GitCall.worktreePrune "/repo"] ∧
    ((read_spool (shard_abandon c9Env c9Store "ab" false
        (some "/repo/worktrees/wt1/sub")).2.1 "ab").map
      (fun sp => sp.shard.map (fun si => si.abandoned))) = some (some true) :=
  ⟨rfl, rfl, rfl, rfl⟩

/-- A name that is none of the five table keys has no profile entry. -/
theorem profilesLookup_unknown (q : String) (h1 : q ≠ "readonly")
    (h2 : q ≠ "careful") (h3 : q ≠ "full") (h4 : q ≠ "shard")
    (h5 : q ≠ "careful+shard") : profilesLookup q = none := by
  have e1 : ("readonly" == q) = false := beq_eq_false_iff_ne.mpr (Ne.symm h1)
  have e2 : ("careful" == q) = false := beq_eq_false_iff_ne.mpr (Ne.symm h2)
  have e3 : ("full" == q) = false := beq_eq_false_iff_ne.mpr (Ne.symm h3)
  have e4 : ("shard" == q) = false := beq_eq_false_iff_ne.mpr (Ne.symm h4)
  have e5 : ("careful+shard" == q) = false := beq_eq_false_iff_ne.mpr (Ne.symm h5)
  simp [profilesLookup, PERMISSION_PROFILES, List.find?, e1, e2, e3, e4, e5]

/-- The profile half of `_resolve_permission` agrees with the spec's
table on every profile name. -/
theorem resolveProfile_cases (p : Option String) :
    resolve_permission p none = resolveProfileSpec p := by
  rcases p with _ | q
  · rfl
  · by_cases h0 : q = ""
    · subst h0; rfl
    · by_cases h1 : q = "readonly"
      · subst h1; rfl
      · by_cases h2 : q = "careful"
        · subst h2; rfl
        · by_cases h3 : q = "full"
          · subst h3; rfl
          · by_cases h4 : q = "shard"
            · subst h4; rfl
            · by_cases h5 : q = "careful+shard"
              · subst h5; rfl
              · have hlook := profilesLookup_unknown q h1 h2 h3 h4 h5
                have hne : q.isEmpty = false := by
                  cases hq : q.isEmpty
                  · rfl
                  · exact absurd ((String.isEmpty_iff q).mp hq) h0
                have hbq : (q == "") = false := by
                  simpa using h0
                simp [resolve_permission, resolveProfileSpec, strTruthy, hne,
                  hbq, hlook]

/-- Claim C6 (amended): permission resolution, exhaustively.  A
**non-empty** explicit `allowed_tools` wins, is returned unchanged, and
suppresses auto-shard; an empty-string `allowed_tools` — like an empty
or missing `permission` — is treated as absent; among the table's
profiles `auto_shard` is true exactly for `shard` and `careful+shard`;
unknown profile names fall back to `careful`'s tools with `auto_shard`
false. -/
theorem spindle_C6_resolution (p t : Option String) :
    resolve_permission p t = resolvePermissionSpec p t := by
  rcases t with _ | s
  · exact resolveProfile_cases p
  · by_cases hs : s = ""
    · subst hs
      calc resolve_permission p (some "")
          = resolve_permission p none := rfl
        _ = resolveProfileSpec p := resolveProfile_cases p
        _ = resolvePermissionSpec p (some "") := rfl
    · have hne : s.isEmpty = false := by
        cases hq : s.isEmpty
        · rfl
        · exact absurd ((String.isEmpty_iff s).mp hq) hs
      have hbq : (s != "") = true := by
        simpa using hs
      simp [resolve_permission, resolvePermissionSpec, strTruthy, hne, hbq]

/-- Claim C5 (amended): the return value of `check_and_finalize`,
characterized.  It returns `true` for a missing record and for a record
in *any* state other than `running` — including `pending` — as well as
when it performs finalization; it returns `false` for a running record
with no pid yet, and for a running record whose pid is alive while the
stdout-completion probe is negative.  Conversely, a `true` return means
the record was missing, was already non-`running`, or exactly one
authoritative record write was performed. -/
theorem spindle_C5_return_value (jl : String → Option JVal) (alive : Int → Bool)
    (now : Int) (st : Store) (id : String) :
    (read_spool st id = none →
      check_and_finalize_spool jl alive now st id = some (true, st)) ∧
    (∀ sp, read_spool st id = some sp → sp.status ≠ "running" →
      check_and_finalize_spool jl alive now st id = some (true, st)) ∧
    (∀ sp, read_spool st id = some sp → sp.status = "running" → sp.pid = none →
      check_and_finalize_spool jl alive now st id = some (false, st)) ∧
    (∀ sp p, read_spool st id = some sp → sp.status = "running" →
      sp.pid = some p → p ≠ 0 → alive p = true →
      stdout_complete_check jl (fileGet st.stdoutFiles id) = some false →
      check_and_finalize_spool jl alive now st id = some (false, st)) ∧
    (∀ st', check_and_finalize_spool jl alive now st id = some (true, st') →
      read_spool st id = none ∨
      (∃ sp, read_spool st id = some sp ∧ sp.status ≠ "running") ∨
      st'.writes.length = st.writes.length + 1) := by
  refine ⟨?_, ?_, ?_, ?_, ?_⟩
  · intro h
    simp [check_and_finalize_spool, finalizeRead, h]
  · intro sp h hne
    have hbne : (sp.status != "running") = true := by simpa using hne
    simp [check_and_finalize_spool, finalizeRead, h, hbne]
  · intro sp h hrun hpid
    have hbne : (sp.status != "running") = false := by simp [hrun]
    simp [check_and_finalize_spool, finalizeRead, h, hbne, hpid]
  · intro sp p h hrun hpid hp halive hsc
    have hbne : (sp.status != "running") = false := by simp [hrun]
    have hp0 : (p == 0) = false := by simpa using hp
    simp [check_and_finalize_spool, finalizeRead, h, hbne, hpid, hp0, hsc, halive]
  · intro st' h
    unfold check_and_finalize_spool at h
    rcases hfr : finalizeRead jl alive st id with _ | sb
    · rw [hfr] at h
      simp at h
    · rw [hfr] at h
      rcases sb with b | plan
      · simp only [Option.some.injEq, Prod.mk.injEq] at h
        rcases finalizeRead_true_cases (h.1 ▸ hfr) with h1 | h2
        · exact Or.inl h1
        · exact Or.inr (Or.inl h2)
      · simp only [Option.some.injEq, Prod.mk.injEq, true_and] at h
        refine Or.inr (Or.inr ?_)
        rw [← h, finalizeWrite_writes]
        simp

/-- Witness for the C5 characterization: a missing record and a pending
record both yield `true`; a running record without a pid, and a running
record with a live pid and no stdout, both yield `false`. -/
theorem spindle_C5_return_value_witness :
    check_and_finalize_spool (fun _ => none) (fun _ => false) 0 {} "zz" =
      some (true, {}) ∧
    check_and_finalize_spool (fun _ => none) (fun _ => false) 0 c5Store "p1" =
      some (true, c5Store) ∧
    check_and_finalize_spool (fun _ => none) (fun _ => false) 0 c5NoPidStore "q1" =
      some (false, c5NoPidStore) ∧
    check_and_finalize_spool (fun _ => none) (fun _ => true) 0 c5AliveStore "q2" =
      some (false, c5AliveStore) :=
  ⟨(spindle_C5_return_value (fun _ => none) (fun _ => false) 0 {} "zz").1 rfl,
   (spindle_C5_return_value (fun _ => none) (fun _ => false) 0 c5Store "p1").2.1
     _ rfl (by decide),
   (spindle_C5_return_value (fun _ => none) (fun _ => false) 0 c5NoPidStore "q1").2.2.1
     _ rfl rfl rfl,
   (spindle_C5_return_value (fun _ => none) (fun _ => true) 0 c5AliveStore "q2").2.2.2.1
     _ 3 rfl rfl rfl (by decide) rfl rfl⟩

/-- On a running spool whose pid is recorded, non-zero and dead, the
read half of finalization reaches the parse and returns its verdict
(provided the `stdout_complete` probe did not raise). -/
theorem finalizeRead_dead {jl : String → Option JVal} {alive : Int → Bool}
    {st : Store} {id : String} {sp : Spool} {p : Int}
    (hrec : read_spool st id = some sp) (hrun : sp.status = "running")
    (hpid : sp.pid = some p) (hp : p ≠ 0)
    {sc : Bool}
    (hsc : stdout_complete_check jl (fileGet st.stdoutFiles id) = some sc)
    (halt : (alive p && !sc) = false) :
    finalizeRead jl alive st id =
      (match finalize_decision jl sp ((fileGet st.stdoutFiles id).getD "")
          ((fileGet st.stderrFiles id).getD "") with
        | none => none
        | some sp1 => some (.inr ⟨sp1, (fileGet st.stdoutFiles id).getD ""⟩)) := by
  have hbne : (sp.status != "running") = false := by simp [hrun]
  have hp0 : (p == 0) = false := by simpa using hp
  simp [finalizeRead, hrec, hbne, hpid, hp0, hsc, halt]

/-- When the `stdout_complete` probe raises (an uncaught `TypeError`
from `in` on a non-container JSON value), the read half propagates the
exception. -/
theorem finalizeRead_sc_crash {jl : String → Option JVal} {alive : Int → Bool}
    {st : Store} {id : String} {sp : Spool} {p : Int}
    (hrec : read_spool st id = some sp) (hrun : sp.status = "running")
    (hpid : sp.pid = some p) (hp : p ≠ 0)
    (hsc : stdout_complete_check jl (fileGet st.stdoutFiles id) = none) :
    finalizeRead jl alive st id = none := by
  have hbne : (sp.status != "running") = false := by simp [hrun]
  have hp0 : (p == 0) = false := by simpa using hp
  simp [finalizeRead, hrec, hbne, hpid, hp0, hsc]

/-- When stdout parses as a JSON object the `stdout_complete` probe
computes a boolean (it cannot raise). -/
theorem stdout_complete_check_obj {jl : String → Option JVal} {f : Option String}
    {fields : List (String × JVal)} (h : jl (f.getD "") = some (.obj fields)) :
    ∃ sc, stdout_complete_check jl f = some sc := by
  rcases f with _ | content
  · exact ⟨false, rfl⟩
  · by_cases hb : isBlank content
    · exact ⟨false, by simp [stdout_complete_check, hb]⟩
    · simp only [Option.getD_some] at h
      exact ⟨(fields.any (fun p => p.1 == "result") || fields.any (fun p => p.1 == "error")),
        by simp [stdout_complete_check, hb, h, pyIn]⟩

/-- When stdout does not parse as JSON the `stdout_complete` probe is
`false` (the `JSONDecodeError` is swallowed). -/
theorem stdout_complete_check_nonjson {jl : String → Option JVal} {f : Option String}
    (h : jl (f.getD "") = none) :
    stdout_complete_check jl f = some false := by
  rcases f with _ | content
  · rfl
  · by_cases hb : isBlank content
    · simp [stdout_complete_check, hb]
    · simp only [Option.getD_some] at h
      simp [stdout_complete_check, hb, h]

/-- Claim C4 (amended): the terminal record finalization computes, for a
running spool that finalization decides is done (pid recorded, non-zero
and dead, or the stdout-completion probe positive).  If stdout parses as a JSON
**object**, the status is `complete` with `result` the object's
`result` value when present and the raw stdout otherwise, and
`session_id` / `cost` overwritten from the object — even when no
`result` key is present.  If stdout parses as JSON that is *not* an
object, `.get` raises an uncaught `AttributeError` and nothing is
finalized.  If stdout does not parse, the non-blank-stdout /
non-blank-stderr (first 500 chars) / no-output cascade applies.  In the
non-raising cases the write half sets `completed_at`, persists the
record, deletes both siblings, and copies stdout to the transcript
exactly when the new `session_id` is truthy and stdout is non-empty. -/
theorem spindle_C4_finalization (jl : String → Option JVal) (alive : Int → Bool)
    (now : Int) (st : Store) (id : String) (sp : Spool) (p : Int)
    (hrec : read_spool st id = some sp)
    (hrun : sp.status = "running")
    (hpid : sp.pid = some p) (hp : p ≠ 0)
    (hdone : alive p = false ∨
      stdout_complete_check jl (fileGet st.stdoutFiles id) = some true) :
    (∀ fields, jl ((fileGet st.stdoutFiles id).getD "") = some (.obj fields) →
      check_and_finalize_spool jl alive now st id =
        some (true, finalizeWrite now st id
          ⟨{ sp with
              result := some ((dictGet fields "result").getD
                (.str ((fileGet st.stdoutFiles id).getD "")))
              session_id := dictGet fields "session_id"
              cost := dictGet fields "cost"
              status := "complete" },
            (fileGet st.stdoutFiles id).getD ""⟩)) ∧
    (∀ v, jl ((fileGet st.stdoutFiles id).getD "") = some v →
      (∀ fields, v ≠ .obj fields) →
      check_and_finalize_spool jl alive now st id = none) ∧
    (jl ((fileGet st.stdoutFiles id).getD "") = none →
      check_and_finalize_spool jl alive now st id =
        some (true, finalizeWrite now st id
          ⟨(if !isBlank ((fileGet st.stdoutFiles id).getD "") then
              { sp with
                result := some (.str ((fileGet st.stdoutFiles id).getD ""))
                status := "complete" }
            else if !isBlank ((fileGet st.stderrFiles id).getD "") then
              { sp with
                status := "error"
                error := some (strTake ((fileGet st.stderrFiles id).getD "") 500) }
            else
              { sp with
                status := "error"
                error := some "Process exited with no output" }),
            (fileGet st.stdoutFiles id).getD ""⟩)) ∧
    (∀ q : FinalPlan, q.newRecord.id = id →
      read_spool (finalizeWrite now st id q) id =
        some { q.newRecord with completed_at := some now } ∧
      fileGet (finalizeWrite now st id q).stdoutFiles id = none ∧
      fileGet (finalizeWrite now st id q).stderrFiles id = none ∧
      fileGet (finalizeWrite now st id q).transcripts id =
        (if (jtruthyOpt q.newRecord.session_id && q.stdout != "") = true then
          some q.stdout
        else fileGet st.transcripts id) ∧
      (finalizeWrite now st id q).writes =
        st.writes ++ [{ q.newRecord with completed_at := some now }]) := by
  refine ⟨?_, ?_, ?_, ?_⟩
  · intro fields hjl
    obtain ⟨sc, hsc⟩ := stdout_complete_check_obj (f := fileGet st.stdoutFiles id) hjl
    have halt : (alive p && !sc) = false := by
      rcases hdone with hd | hst
      · simp [hd]
      · have hsct : sc = true := Option.some.inj (hsc.symm.trans hst)
        simp [hsct]
    unfold check_and_finalize_spool
    rw [finalizeRead_dead hrec hrun hpid hp hsc halt]
    have hdec : finalize_decision jl sp ((fileGet st.stdoutFiles id).getD "")
        ((fileGet st.stderrFiles id).getD "") =
        some { sp with
          result := some ((dictGet fields "result").getD
            (.str ((fileGet st.stdoutFiles id).getD "")))
          session_id := dictGet fields "session_id"
          cost := dictGet fields "cost"
          status := "complete" } := by
      unfold finalize_decision
      rw [hjl]
    rw [hdec]
  · intro v hjl hne
    have hdec : finalize_decision jl sp ((fileGet st.stdoutFiles id).getD "")
        ((fileGet st.stderrFiles id).getD "") = none := by
      unfold finalize_decision
      rw [hjl]
      rcases v with _ | b | n | s | xs | fields
      · rfl
      · rfl
      · rfl
      · rfl
      · rfl
      · exact absurd rfl (hne fields)
    unfold check_and_finalize_spool
    by_cases hscn : stdout_complete_check jl (fileGet st.stdoutFiles id) = none
    · rw [finalizeRead_sc_crash hrec hrun hpid hp hscn]
    · obtain ⟨sc, hsc⟩ : ∃ sc,
          stdout_complete_check jl (fileGet st.stdoutFiles id) = some sc := by
        cases hx : stdout_complete_check jl (fileGet st.stdoutFiles id) with
        | none => exact absurd hx hscn
        | some b => exact ⟨b, rfl⟩
      have halt : (alive p && !sc) = false := by
        rcases hdone with hd | hst
        · simp [hd]
        · have hsct : sc = true := Option.some.inj (hsc.symm.trans hst)
          simp [hsct]
      rw [finalizeRead_dead hrec hrun hpid hp hsc halt, hdec]
  · intro hjl
    have hsc := stdout_complete_check_nonjson (f := fileGet st.stdoutFiles id) hjl
    have hd : alive p = false := by
      rcases hdone with hd | hst
      · exact hd
      · rw [hsc] at hst
        exact absurd (Option.some.inj hst) (by decide)
    have halt : (alive p && !false) = false := by simp [hd]
    unfold check_and_finalize_spool
    rw [finalizeRead_dead hrec hrun hpid hp hsc halt]
    have hdec : finalize_decision jl sp ((fileGet st.stdoutFiles id).getD "")
        ((fileGet st.stderrFiles id).getD "") =
        some (if !isBlank ((fileGet st.stdoutFiles id).getD "") then
            { sp with
              result := some (.str ((fileGet st.stdoutFiles id).getD ""))
              status := "complete" }
          else if !isBlank ((fileGet st.stderrFiles id).getD "") then
            { sp with
              status := "error"
              error := some (strTake ((fileGet st.stderrFiles id).getD "") 500) }
          else
            { sp with
              status := "error"
              error := some "Process exited with no output" }) := by
      unfold finalize_decision
      rw [hjl]
      by_cases h1 : (!isBlank ((fileGet st.stdoutFiles id).getD "")) = true
      · simp [h1]
      · by_cases h2 : (!isBlank ((fileGet st.stderrFiles id).getD "")) = true
        · simp [h1, h2]
        · simp [h1, h2]
    rw [hdec]
  · intro q hid
    refine ⟨?_, ?_, ?_, ?_, finalizeWrite_writes now st id q⟩
    · exact (read_spool_eq_records (finalizeWrite_records now st id q) id).trans
        (read_spool_write_self hid)
    · rw [finalizeWrite_stdoutFiles]
      exact fileGet_del_self _ _
    · rw [finalizeWrite_stderrFiles]
      exact fileGet_del_self _ _
    · rw [finalizeWrite_transcripts]
      by_cases hc : (jtruthyOpt q.newRecord.session_id && q.stdout != "") = true
      · simp [hc, fileGet_set_self]
      · simp [hc]

/-- Witness for the C4 finalization cases, on a running spool with a
dead pid and no output files: a JSON-object parse completes with the
parsed fields, a JSON-array parse raises, an unparseable empty stdout
errors with "Process exited with no output", and the write half
persists `completed_at`. -/
theorem spindle_C4_finalization_witness :
    check_and_finalize_spool (fun _ => some (.obj [("result", .str "r")]))
        (fun _ => false) 9 c4wStore "w4" =
      some (true, finalizeWrite 9 c4wStore "w4"
        ⟨{ c4wRecord with
            result := some (.str "r")
            session_id := none
            cost := none
            status := "complete" }, ""⟩) ∧
    check_and_finalize_spool (fun _ => some (.arr [])) (fun _ => false) 9
        c4wStore "w4" = none ∧
    check_and_finalize_spool (fun _ => none) (fun _ => false) 9 c4wStore "w4" =
      some (true, finalizeWrite 9 c4wStore "w4"
        ⟨{ c4wRecord with
            status := "error"
            error := some "Process exited with no output" }, ""⟩) ∧
    read_spool (finalizeWrite 9 c4wStore "w4" ⟨c4wRecord, ""⟩) "w4" =
      some { c4wRecord with completed_at := some 9 } :=
  ⟨(spindle_C4_finalization (fun _ => some (.obj [("result", .str "r")]))
      (fun _ => false) 9 c4wStore "w4" c4wRecord 1 rfl rfl rfl (by decide) (Or.inl rfl)).1
      [("result", .str "r")] rfl,
   (spindle_C4_finalization (fun _ => some (.arr [])) (fun _ => false) 9
      c4wStore "w4" c4wRecord 1 rfl rfl rfl (by decide) (Or.inl rfl)).2.1
      (.arr []) rfl (fun fields h => JVal.noConfusion h),
   (spindle_C4_finalization (fun _ => none) (fun _ => false) 9
      c4wStore "w4" c4wRecord 1 rfl rfl rfl (by decide) (Or.inl rfl)).2.2.1 rfl,
   ((spindle_C4_finalization (fun _ => none) (fun _ => false) 9
      c4wStore "w4" c4wRecord 1 rfl rfl rfl (by decide) (Or.inl rfl)).2.2.2
      ⟨c4wRecord, ""⟩ rfl).1⟩

set_option maxRecDepth 4096 in
/-- The non-SKEIN shard preamble is non-empty. -/
theorem shardPreambleText_length : shardPreambleText.length ≠ 0 := by decide

set_option maxRecDepth 4096 in
/-- The SKEIN shard preamble is non-empty whatever gets interpolated. -/
theorem skeinPreamble_length (p i w : String) : (skeinPreamble p i w).length ≠ 0 := by
  unfold skeinPreamble
  simp only [String.length_append]
  have h1 : ("You are working in an isolated SHARD worktree.\n\nBefore starting work, orient yourself with SKEIN:\n1. Run: skein ignite --message \"").length ≠ 0 := by
    decide
  omega

/-- Claim C8 (amended): a spool created by `spin` stores the caller's
original prompt unmodified — the shard preamble is prepended only to the
`-p` argument handed to the child, which then differs from the stored
prompt — while a spool created by `respin` stores
`"Continue <session_id>: <prompt>"` rather than the raw prompt. -/
theorem spindle_C8_stored_prompt :
    (∀ env st a st1 ctx, spinPhase1 env st a = .ok (st1, ctx) →
      ctx.record.prompt = a.prompt ∧
      read_spool st1 env.newId = some ctx.record) ∧
    (∀ env st a st1 ctx si, spinPhase1 env st a = .ok (st1, ctx) →
      ctx.record.shard = some si → env.bwrapAvail = false →
      ctx.cmd.get? 2 = some ((if env.hasSkein && !a.skeinless then
          skeinPreamble a.prompt env.newId si.shard_id
        else shardPreambleText) ++ a.prompt) ∧
      ctx.cmd.get? 2 ≠ some a.prompt) ∧
    (∀ renv rst sid pr rst1 rctx, respinPhase1 renv rst sid pr = .ok (rst1, rctx) →
      rctx.record.prompt = "Continue " ++ sid ++ ": " ++ pr ∧
      read_spool rst1 renv.newId = some rctx.record) := by
  refine ⟨?_, ?_, ?_⟩
  · intro env st a st1 ctx h
    unfold spinPhase1 at h
    by_cases hc1 : count_running st.records ≥ env.maxConcurrent
    · rw [if_pos hc1] at h
      cases h
    · rw [if_neg hc1] at h
      by_cases hc2 : (!strTruthy a.working_dir) = true
      · rw [if_pos hc2] at h
        cases h
      · rw [if_neg hc2] at h
        dsimp only at h
        by_cases hc3 : ((a.shard || (resolve_permission a.permission a.allowed_tools).2) &&
            env.spawnShardRes.isNone) = true
        · rw [if_pos hc3] at h
          cases h
        · rw [if_neg hc3] at h
          simp only [Except.ok.injEq, Prod.mk.injEq] at h
          refine ⟨?_, ?_⟩
          · rw [← h.2]
          · rw [← h.1, ← h.2]
            exact read_spool_write_self rfl
  · intro env st a st1 ctx si h hsi hbw
    unfold spinPhase1 at h
    by_cases hc1 : count_running st.records ≥ env.maxConcurrent
    · rw [if_pos hc1] at h
      cases h
    · rw [if_neg hc1] at h
      by_cases hc2 : (!strTruthy a.working_dir) = true
      · rw [if_pos hc2] at h
        cases h
      · rw [if_neg hc2] at h
        dsimp only at h
        by_cases hc3 : ((a.shard || (resolve_permission a.permission a.allowed_tools).2) &&
            env.spawnShardRes.isNone) = true
        · rw [if_pos hc3] at h
          cases h
        · rw [if_neg hc3] at h
          simp only [Except.ok.injEq, Prod.mk.injEq] at h
          rw [← h.2] at hsi ⊢
          dsimp only at hsi ⊢
          rw [hsi, hbw]
          simp only [Option.isSome_some, Bool.and_false, Bool.false_eq_true,
            if_false, Option.map_some, Option.getD_some, Bool.and_true]
          constructor
          · by_cases hs : (env.hasSkein && !a.skeinless) = true
            · simp [hs]
            · simp [hs]
          · intro hc
            by_cases hs : (env.hasSkein && !a.skeinless) = true
            · simp only [hs, if_true] at hc
              have hx : (skeinPreamble a.prompt env.newId si.shard_id ++ a.prompt) =
                  a.prompt := by
                simpa using hc
              exact append_ne_self a.prompt (skeinPreamble_length _ _ _) hx
            · simp only [hs, Bool.false_eq_true, if_false] at hc
              have hx : (shardPreambleText ++ a.prompt) = a.prompt := by
                simpa using hc
              exact append_ne_self a.prompt shardPreambleText_length hx
  · intro renv rst sid pr rst1 rctx h
    unfold respinPhase1 at h
    by_cases hc1 : count_running rst.records ≥ renv.maxConcurrent
    · rw [if_pos hc1] at h
      cases h
    · rw [if_neg hc1] at h
      simp only [Except.ok.injEq, Prod.mk.injEq] at h
      refine ⟨?_, ?_⟩
      · rw [← h.2]
      · rw [← h.1, ← h.2]
        exact read_spool_write_self rfl

/-- Witness for the stored-prompt theorem: a sharded spin stores the
original prompt while the child's `-p` argument differs from it, and a
respin stores the `Continue`-prefixed prompt. -/
theorem spindle_C8_stored_prompt_witness :
    w8SpinRes.2.record.prompt = w8SpinArgs.prompt ∧
    w8SpinRes.2.cmd.get? 2 ≠ some w8SpinArgs.prompt ∧
    w8Ctx.record.prompt = "Continue " ++ "s1" ++ ": " ++ "more" :=
  ⟨(spindle_C8_stored_prompt.1 w8SpinEnv {} w8SpinArgs w8SpinRes.1 w8SpinRes.2 rfl).1,
   (spindle_C8_stored_prompt.2.1 w8SpinEnv {} w8SpinArgs w8SpinRes.1 w8SpinRes.2
      ⟨"/r/worktrees/w", "shard-w", "w", false, none, false, none⟩ rfl rfl rfl).2,
   (spindle_C8_stored_prompt.2.2 c8REnv {} "s1" "more" w8St1 w8Ctx rfl).1⟩

/-- Claim C9 (amended): with `caller_cwd` equal to or a descendant of
the worktree path, `shard_merge` always replies with one of its error
strings, leaves the store untouched and runs no git command;
`shard_abandon` does the same **provided the worktree directory still
exists** (its guard is gated on `wt_path.exists()`). -/
theorem spindle_C9_guard (env : ShardOpEnv) (st : Store) (id : String) (kb : Bool)
    (caller : String) (sp : Spool) (si : Shard)
    (hrec : read_spool st id = some sp)
    (hsh : sp.shard = some si)
    (hne : caller ≠ "")
    (hin : (pathComponents caller == pathComponents si.worktree_path ||
            isAncestor (pathComponents si.worktree_path) (pathComponents caller)) = true) :
    (shard_merge env st id kb (some caller) = (msgSpoolRunning id, st, []) ∨
     shard_merge env st id kb (some caller) =
       (msgWorktreeGone si.worktree_path, st, []) ∨
     shard_merge env st id kb (some caller) =
       (msgInsideWorktree (pathComponents si.worktree_path), st, [])) ∧
    (env.dirExists si.worktree_path = true →
      (shard_abandon env st id kb (some caller) = (msgNoWorktreePath, st, []) ∨
       shard_abandon env st id kb (some caller) =
         (msgInsideWorktree (pathComponents si.worktree_path), st, []))) := by
  have hie : caller.isEmpty = false := by
    cases hq : caller.isEmpty
    · rfl
    · exact absurd ((String.isEmpty_iff caller).mp hq) hne
  have htr : (!strTruthy (some caller)) = false := by
    simp [strTruthy, hie]
  constructor
  · by_cases hrun : (sp.status == "running") = true
    · exact Or.inl (by simp [shard_merge, htr, hrec, hrun])
    · have hrun' : (sp.status == "running") = false := Bool.eq_false_iff.mpr hrun
      by_cases hwt : (si.worktree_path == "" || !env.dirExists si.worktree_path) = true
      · exact Or.inr (Or.inl (by simp [shard_merge, htr, hrec, hrun', hsh, hwt]))
      · have hwt' : (si.worktree_path == "" || !env.dirExists si.worktree_path) = false :=
          Bool.eq_false_iff.mpr hwt
        refine Or.inr (Or.inr ?_)
        simp [shard_merge, htr, hrec, hrun', hsh, hwt', hin]
  · intro hex
    by_cases hwtp : (si.worktree_path == "") = true
    · exact Or.inl (by simp [shard_abandon, htr, hrec, hsh, hwtp])
    · have hwtp' : (si.worktree_path == "") = false := Bool.eq_false_iff.mpr hwtp
      refine Or.inr ?_
      simp [shard_abandon, htr, hrec, hsh, hwtp', hex, hin]

/-- Witness for the guard theorem: with the worktree directory present
and `caller_cwd` strictly inside it, both tools refuse without touching
anything. -/
theorem spindle_C9_guard_witness :
    (shard_merge w9Env c9Store "ab" false (some "/repo/worktrees/wt1/sub") =
       (msgSpoolRunning "ab", c9Store, []) ∨
     shard_merge w9Env c9Store "ab" false (some "/repo/worktrees/wt1/sub") =
       (msgWorktreeGone c9Shard.worktree_path, c9Store, []) ∨
     shard_merge w9Env c9Store "ab" false (some "/repo/worktrees/wt1/sub") =
       (msgInsideWorktree (pathComponents c9Shard.worktree_path), c9Store, [])) ∧
    (w9Env.dirExists c9Shard.worktree_path = true →
      (shard_abandon w9Env c9Store "ab" false (some "/repo/worktrees/wt1/sub") =
         (msgNoWorktreePath, c9Store, []) ∨
       shard_abandon w9Env c9Store "ab" false (some "/repo/worktrees/wt1/sub") =
         (msgInsideWorktree (pathComponents c9Shard.worktree_path), c9Store, []))) :=
  spindle_C9_guard w9Env c9Store "ab" false "/repo/worktrees/wt1/sub" _ c9Shard rfl rfl
    (by decide) (by decide)

/-- Claim C10: when a respin spool's expired-session fallback succeeds
(no expired deadline this iteration, sentinel present in stderr, an
originating spool with a transcript found, respawn succeeded), the
monitor iteration ends the loop (`exitFallback`) — so no background
monitor ever polls the respawned child again and its `timeout` is never
enforced — while the record it leaves behind is still `running` (not
terminal) with the new pid and `used_transcript_fallback = true`; the
only record write of the iteration is that non-terminal pid update, so
finalization can only come from a later tool call
(`unspool` / `spin_wait` / `spools` / `spool_dashboard`). -/
theorem spindle_C10_fallback (jl : String → Option JVal) (alive : Int → Bool)
    (now npid : Int) (st : Store) (id : String) (sp orig : Spool)
    (tr stderrContent : String)
    (hrec : read_spool st id = some sp)
    (hrun : sp.status = "running")
    (hsid : jtruthyOpt sp.session_id = true)
    (htmo : sp.timeout = none ∨
      ∃ t, sp.timeout = some t ∧ (t = 0 ∨ now - sp.created_at ≤ t))
    (herr : fileGet st.stderrFiles id = some stderrContent)
    (hsent : pyContains stderrContent "No conversation found with session ID" = true)
    (horig : find_spool_by_session st.records sp.session_id = some orig)
    (htr : fileGet st.transcripts orig.id = some tr) :
    (let spNew : Spool := { sp with
        pid := some npid
        used_transcript_fallback := true
        transcript_injected_at := some now };
     let st' : Store := write_spool
        (spawn_detached_fs st id
          (["claude", "-p",
            "Previous conversation transcript:\n\n" ++ tr ++
              "\n\n---\n\nContinue from above. New message: " ++
              splitOnceTail sp.prompt ": ",
            "--output-format", "json"])
          sp.working_dir)
        spNew;
     monitor_iterate jl alive now (some npid) st id = some (.exitFallback, st') ∧
     read_spool st' id = some spNew ∧
     spNew.status = "running" ∧
     isTerminal spNew.status = false ∧
     st'.writes = st.writes ++ [spNew]) := by
  have hid : sp.id = id := read_spool_some_id hrec
  refine ⟨?_, ?_, ?_, ?_, ?_⟩
  · have hrest : monitorSentinelAndFinalize jl alive now (some npid) st id
        (read_spool st id) =
        some (.exitFallback, write_spool
          (spawn_detached_fs st id
            (["claude", "-p",
              "Previous conversation transcript:\n\n" ++ tr ++
                "\n\n---\n\nContinue from above. New message: " ++
                splitOnceTail sp.prompt ": ",
              "--output-format", "json"])
            sp.working_dir)
          { sp with
            pid := some npid
            used_transcript_fallback := true
            transcript_injected_at := some now }) := by
      rw [hrec]
      simp [monitorSentinelAndFinalize, handle_expired_session, hsid, hrun,
        herr, hsent, horig, htr]
    rcases htmo with h0 | ⟨t, ht, hcase⟩
    · simpa [monitor_iterate, hrec, h0] using hrest
    · rcases hcase with h0 | hle
      · subst h0
        simpa [monitor_iterate, hrec, ht] using hrest
      · have hlt : ¬ (now - sp.created_at > t) := not_lt.mpr hle
        simpa [monitor_iterate, hrec, ht, hlt] using hrest
  · exact read_spool_write_self hid
  · exact hrun
  · simp [isTerminal, hrun]
  · simp [write_spool, spawn_detached_fs]

/-- Witness for the fallback theorem, at the concrete transcript-fallback
run: the monitor exits via the fallback, leaving a still-running record
with the new pid. -/
theorem spindle_C10_fallback_witness :
    (let spNew : Spool := { w10Spool with
        pid := some 77
        used_transcript_fallback := true
        transcript_injected_at := some 5 };
     let st' : Store := write_spool
        (spawn_detached_fs w10Store "r10"
          (["claude", "-p",
            "Previous conversation transcript:\n\n" ++ "TR" ++
              "\n\n---\n\nContinue from above. New message: " ++
              splitOnceTail w10Spool.prompt ": ",
            "--output-format", "json"])
          w10Spool.working_dir)
        spNew;
     monitor_iterate (fun _ => none) (fun _ => true) 5 (some 77) w10Store "r10" =
       some (.exitFallback, st') ∧
     read_spool st' "r10" = some spNew ∧
     spNew.status = "running" ∧
     isTerminal spNew.status = false ∧
     st'.writes = w10Store.writes ++ [spNew]) :=
  spindle_C10_fallback (fun _ => none) (fun _ => true) 5 77 w10Store "r10" w10Spool
    w10Orig "TR" "No conversation found with session ID s1" rfl rfl rfl (Or.inl rfl)
    rfl (by decide) rfl rfl

end Spindle
